import Mathlib

/-!
Verification of the SVG normalization pipeline of `build.py`
(repository `typst-iso-7000`).

The pipeline (`process_svg`) parses one SVG file into an XML tree,
applies a structural filter (comment stripping, namespace/denylist
removal, namespaced-attribute removal, `defs` removal, gray-stroke
removal, empty-group fixpoint pruning), then normalizes the root's
geometry attributes (`width`, `height`, `viewBox`), and serializes
the result.  We embed the tree transformation shallowly: an XML
document is a root element (`XTree`) carrying an ordered list of
child nodes (`XNode`); attribute and element names carry an optional
namespace URI, mirroring lxml's Clark notation in which a namespaced
name is spelled with a braced URI (so lxml's test "does the attribute
key contain a closing brace" is exactly "does the attribute carry a
namespace" here).  The metadata fold of `process_wikimedia` is
embedded over association lists mirroring Python's insertion-ordered
dict.
-/

/-- An XML attribute as lxml exposes it: an optional namespace URI
(lxml spells namespaced keys in braced Clark notation, so the source's
check for a brace in the key is exactly `ns.isSome` here), a local
name, and a value. -/
structure XAttr where
  ns : Option String
  key : String
  val : String
deriving DecidableEq, Repr

/-- A node of an XML tree: an element (optional namespace URI, local
name, attributes, ordered children), a text node (lxml `.text`/`.tail`
runs appear as child text nodes here), or a comment. -/
inductive XNode where
  | elem (ns : Option String) (tag : String) (attrib : List XAttr) (children : List XNode)
  | text (s : String)
  | comment (s : String)

/-- A parsed XML document: lxml's `tree.getroot()` is always an
element, so a document is the root element's data. -/
structure XTree where
  rootNs : Option String
  rootTag : String
  rootAttrib : List XAttr
  rootChildren : List XNode

/-- The SVG namespace URI tested by `process_svg`. -/
def svgNS : String := "http://www.w3.org/2000/svg"

/-- Model of `elem.get(k)` / `root.get(k)`: look up the un-namespaced attribute
named `k` (an lxml lookup by a plain key matches only keys without a
namespace part). -/
def getAttr (attrs : List XAttr) (k : String) : Option String :=
  (attrs.find? (fun a => a.ns == none && a.key == k)).map (fun a => a.val)

/-- Model of `elem.set(k, v)`: overwrite the un-namespaced attribute `k` in
place if present, else append it at the end (lxml keeps attribute
order and appends new keys). -/
def setAttr (attrs : List XAttr) (k v : String) : List XAttr :=
  if attrs.any (fun a => a.ns == none && a.key == k) then
    attrs.map (fun a => if a.ns == none && a.key == k then ⟨a.ns, a.key, v⟩ else a)
  else
    attrs ++ [⟨none, k, v⟩]

/-- Python truthiness of `root.get(k)`: `None` and the empty string
are falsy, any other string is truthy. -/
def truthyO : Option String → Bool
  | none => false
  | some s => s != ""

/-- Substring containment on character lists, the semantics of
XPath `contains(haystack, needle)`. -/
def listHasSub (pat : List Char) : List Char → Bool
  | [] => pat == []
  | c :: rest => pat.isPrefixOf (c :: rest) || listHasSub pat rest

/-- XPath `contains(s, pat)` on strings. -/
def strContains (s pat : String) : Bool :=
  listHasSub pat.data s.data

/-- XPath `contains(@attr, '#999')` where a missing attribute reads as the
empty string (the XPath string value of an empty node-set). -/
def has999 (attrs : List XAttr) (attrName : String) : Bool :=
  strContains ((getAttr attrs attrName).getD "") "#999"

/-! ## Structural Filter, phase 1: comment stripping

`etree.strip_elements(tree, etree.Comment, with_tail=False)` removes
every comment node together with its tail text (the text run
immediately following it). -/

/-- Remove every comment node and the text node immediately following
it (its lxml tail), recursively. -/
def stripCommentsL : List XNode → List XNode
  | [] => []
  | .comment _ :: .text _ :: rest => stripCommentsL rest
  | .comment _ :: rest => stripCommentsL rest
  | .elem ns t a cs :: rest => .elem ns t a (stripCommentsL cs) :: stripCommentsL rest
  | .text s :: rest => .text s :: stripCommentsL rest

/-! ## Structural Filter, phase 2: namespace / denylist removal

`for elem in root.xpath(".|.//*")`: visit the root and every
descendant element in document order; remove an element whose
namespace is not the SVG namespace or whose local name is `defs`
(the root, having no parent, is never removed and — because of the
`continue` — keeps its attributes untouched when it fails the test);
strip every namespaced attribute from each surviving element.
Because the XPath node list is computed up front and a removed
element keeps its subtree, visiting a detached descendant later has
no effect on the tree: the net effect is a single top-down pass that
discards a removed element's subtree wholesale. -/

/-- The keep test of the namespace/denylist pass: namespace exactly
the SVG namespace and local name not in the denylist `("defs",)`. -/
def keepElem (ns : Option String) (tag : String) : Bool :=
  ns == some svgNS && tag != "defs"

/-- Delete every attribute whose key carries a namespace (lxml: whose
key contains a brace). -/
def stripNsAttrs (attrs : List XAttr) : List XAttr :=
  attrs.filter (fun a => a.ns == none)

/-- The namespace/denylist pass over descendant nodes: drop an element
failing `keepElem` together with its whole subtree; strip namespaced
attributes from kept elements; leave text (and comment) nodes alone
(the XPath `*` steps visit elements only). -/
def nsFilterL : List XNode → List XNode
  | [] => []
  | .elem ns t a cs :: rest =>
      if keepElem ns t then .elem ns t (stripNsAttrs a) (nsFilterL cs) :: nsFilterL rest
      else nsFilterL rest
  | .text s :: rest => .text s :: nsFilterL rest
  | .comment s :: rest => .comment s :: nsFilterL rest

/-! ## Structural Filter, phase 3: `defs` removal

`for elem in root.xpath(".//defs")`: the un-prefixed XPath name
`defs` matches descendant elements named `defs` in *no* namespace;
each is removed with its subtree (the root itself is not a `.//`
match). -/

/-- Remove every descendant element with no namespace and local name
`defs`, subtree and all. -/
def defsFilterL : List XNode → List XNode
  | [] => []
  | .elem ns t a cs :: rest =>
      if ns == none && t == "defs" then defsFilterL rest
      else .elem ns t a (defsFilterL cs) :: defsFilterL rest
  | .text s :: rest => .text s :: defsFilterL rest
  | .comment s :: rest => .comment s :: defsFilterL rest

/-! ## Structural Filter, phase 4: gray-stroke removal

For `elem_type` in `("g", "path")`, remove every descendant element
with that local name (any namespace: `local-name()='g'`) whose
`stroke` attribute contains the substring `#999`, then every one
whose `style` attribute contains `#999`.  Again the matched node list
is computed from the live root each time and matched subtrees are
discarded wholesale. -/

/-- One gray-removal pass: drop descendant elements with local name
`tag` whose attribute `attrName` contains `#999`, subtree and all. -/
def grayPassL (tag attrName : String) : List XNode → List XNode
  | [] => []
  | .elem ns t a cs :: rest =>
      if t == tag && has999 a attrName then grayPassL tag attrName rest
      else .elem ns t a (grayPassL tag attrName cs) :: grayPassL tag attrName rest
  | .text s :: rest => .text s :: grayPassL tag attrName rest
  | .comment s :: rest => .comment s :: grayPassL tag attrName rest

/-! ## Structural Filter, phase 5: empty-group fixpoint pruning

`while True: orphans = root.xpath(".//*[local-name()='g'][not(*)]")`
— repeatedly remove every descendant `g` with no element children
until none remains.  Each effective pass strictly shrinks the
element count, which bounds the iteration. -/

/-- Does the node list contain an element node (XPath `*`)? -/
def hasElemChild : List XNode → Bool
  | [] => false
  | .elem _ _ _ _ :: _ => true
  | .text _ :: rest => hasElemChild rest
  | .comment _ :: rest => hasElemChild rest

/-- Is some descendant an orphan group, i.e. an element with local
name `g` and no element children? -/
def hasOrphan : List XNode → Bool
  | [] => false
  | .elem _ t _ cs :: rest =>
      (t == "g" && !hasElemChild cs) || hasOrphan cs || hasOrphan rest
  | .text _ :: rest => hasOrphan rest
  | .comment _ :: rest => hasOrphan rest

/-- One pass of orphan removal: remove every element with local name
`g` and no element children (judged on the tree as it stood when the
pass's node list was computed). -/
def orphanPassL : List XNode → List XNode
  | [] => []
  | .elem ns t a cs :: rest =>
      if t == "g" && !hasElemChild cs then orphanPassL rest
      else .elem ns t a (orphanPassL cs) :: orphanPassL rest
  | .text s :: rest => .text s :: orphanPassL rest
  | .comment s :: rest => .comment s :: orphanPassL rest

/-- Number of element nodes in a node list (the measure that each
effective orphan pass strictly decreases). -/
def countElems : List XNode → Nat
  | [] => 0
  | .elem _ _ _ cs :: rest => 1 + countElems cs + countElems rest
  | .text _ :: rest => countElems rest
  | .comment _ :: rest => countElems rest

/-- The orphan-removal loop, with fuel standing in for the `while
True` loop (the element count is always sufficient fuel). -/
def orphanFix : Nat → List XNode → List XNode
  | 0, l => l
  | fuel + 1, l => if hasOrphan l then orphanFix fuel (orphanPassL l) else l

/-- The four gray-stroke passes in source order: `for elem_type in
("g", "path")`, first the `stroke` pass, then the `style` pass. -/
def grayAllL (l : List XNode) : List XNode :=
  grayPassL "path" "style" (grayPassL "path" "stroke"
    (grayPassL "g" "style" (grayPassL "g" "stroke" l)))

/-- The whole Structural Filter as it acts below the root: comment
stripping, namespace/denylist removal with attribute stripping,
no-namespace `defs` removal, the four gray-stroke passes, and
orphan-group removal to a fixpoint (the element count bounds the
`while True` loop). -/
def filterChildrenL (l : List XNode) : List XNode :=
  let c3 := grayAllL (defsFilterL (nsFilterL (stripCommentsL l)))
  orphanFix (countElems c3) c3

/-- How the Structural Filter treats the root's own attributes: the
namespace/denylist walk visits the root first, strips its namespaced
attributes when it passes the keep test, and — because the root has
no parent to be removed from, and the failing branch `continue`s —
leaves them untouched otherwise. -/
def filterRootAttrs (ns : Option String) (tag : String) (a : List XAttr) : List XAttr :=
  if keepElem ns tag then stripNsAttrs a else a

/-- The Structural Filter of `process_svg` (build.py lines 192-243):
comment stripping, namespace/denylist removal with attribute
stripping (the root is kept whatever its namespace; its attributes
are stripped only when it passes the keep test), no-namespace `defs`
removal, the four gray-stroke passes in source order (`g`/`stroke`,
`g`/`style`, `path`/`stroke`, `path`/`style`), and orphan-group
removal to a fixpoint.  `etree.cleanup_namespaces` only rewrites
namespace declarations, which this model does not carry.  No phase
touches the root's identity or mixes the root's attributes with the
children, so the filter factors into the two actions below. -/
def structuralFilter (t : XTree) : XTree :=
  ⟨t.rootNs, t.rootTag, filterRootAttrs t.rootNs t.rootTag t.rootAttrib,
   filterChildrenL t.rootChildren⟩

/-! ## Geometry Normalizer

`process_svg` lines 246-271: read `width`, `height`, `viewBox` from
the root (Python truthiness: a missing attribute and an empty string
both count as absent), then the four-case decision.  Case 2 builds
the new viewBox with the f-string `f"0 0 {float(width)} {float(height)}"`,
so we model CPython's `float` parser and `str`/`repr` formatting of
the result.
-/

/-- Digits-to-number accumulator for a run of ASCII digits. -/
def digitsToNat (ds : List Char) : Nat :=
  ds.foldl (fun n c => 10 * n + (c.toNat - 48)) 0

/-- Consume an optional leading sign, returning whether it was a
minus sign and the rest. -/
def takeSign : List Char → Bool × List Char
  | '+' :: r => (false, r)
  | '-' :: r => (true, r)
  | l => (false, l)

/-- CPython `float(s)` on the decimal grammar: optional surrounding
whitespace, an optional sign, then digits with an optional fractional
part (at least one digit overall, `24`, `24.`, `.5` all accepted) and
an optional `e`/`E` exponent with its own optional sign.  Returns the
sign, the joined integer-and-fraction digits as a number, and the
decimal exponent of that number; `none` models `ValueError` (so
`float("24px")` and `float("")` fail).  The `inf`/`infinity`/`nan`
spellings and underscore digit separators CPython also accepts are
outside the modelled grammar — the icon sources never produce them. -/
def pyFloatParse (s : String) : Option (Bool × Nat × Int) :=
  let l := ((s.data.dropWhile Char.isWhitespace).reverse.dropWhile Char.isWhitespace).reverse
  let sgn := takeSign l
  let neg := sgn.1
  let l0 := sgn.2
  let ip := l0.takeWhile Char.isDigit
  let l1 := l0.drop ip.length
  let fpl2 : List Char × List Char :=
    match l1 with
    | '.' :: r => (r.takeWhile Char.isDigit, r.drop (r.takeWhile Char.isDigit).length)
    | _ => ([], l1)
  let fp := fpl2.1
  let l2 := fpl2.2
  if ip.isEmpty && fp.isEmpty then none
  else
    match l2 with
    | [] => some (neg, digitsToNat (ip ++ fp), -(fp.length : Int))
    | e :: r =>
      if e == 'e' || e == 'E' then
        let esgn := takeSign r
        let ed := esgn.2.takeWhile Char.isDigit
        if ed.isEmpty || !(esgn.2.drop ed.length).isEmpty then none
        else
          let ev : Int := if esgn.1 then -(digitsToNat ed : Int) else (digitsToNat ed : Int)
          some (neg, digitsToNat (ip ++ fp), ev - (fp.length : Int))
      else none

/-- Strip trailing decimal zeros off a mantissa, bumping the decimal
exponent accordingly; the first argument is fuel bounding the number
of strippable zeros (the mantissa itself is always enough). -/
def stripTrailZerosF : Nat → Nat → Int → Nat × Int
  | 0, m, e => (m, e)
  | fuel + 1, m, e =>
      if m ≠ 0 && m % 10 == 0 then stripTrailZerosF fuel (m / 10) (e + 1) else (m, e)

/-- Strip trailing decimal zeros off a mantissa, bumping the decimal
exponent accordingly. -/
def stripTrailZeros (m : Nat) (e : Int) : Nat × Int := stripTrailZerosF m m e

/-- The decimal digits of a natural number, most significant first;
the first argument is fuel bounding the digit count (the number
itself is always enough). -/
def natDigitsF : Nat → Nat → List Char
  | 0, _ => []
  | fuel + 1, n =>
      if n < 10 then [Char.ofNat (48 + n)]
      else natDigitsF fuel (n / 10) ++ [Char.ofNat (48 + n % 10)]

/-- The decimal digits of a natural number, most significant first. -/
def natDigits (n : Nat) : List Char := natDigitsF (n + 1) n

/-- CPython `repr`/`str` of a positive value `m * 10^e` (with `m`
already stripped of trailing zeros): fixed notation when the leading
digit's decimal exponent lies in `[-4, 16)`, scientific notation with
a signed, two-digit-padded exponent otherwise.  The value is treated
as the exact rational of the literal, without binary rounding or
overflow to infinity; this agrees with CPython whenever the literal
is its own shortest representation — in particular on the integral
sizes the icon sources carry. -/
def pyReprPos (m : Nat) (e : Int) : List Char :=
  let D := natDigits m
  let k : Int := D.length
  let decExp := e + k - 1
  if -4 ≤ decExp && decExp < 16 then
    if 0 ≤ e then D ++ List.replicate e.toNat '0' ++ ['.', '0']
    else if 0 < k + e then D.take (k + e).toNat ++ ['.'] ++ D.drop (k + e).toNat
    else ['0', '.'] ++ List.replicate (-(k + e)).toNat '0' ++ D
  else
    let mant : List Char :=
      match D with
      | [] => []
      | [d] => [d]
      | d :: rest => d :: '.' :: rest
    let eAbs := natDigits decExp.natAbs
    let ePad := if eAbs.length < 2 then '0' :: eAbs else eAbs
    mant ++ ['e', if decExp < 0 then '-' else '+'] ++ ePad

/-- Model of `f"{float(s)}"`: parse `s` as CPython `float` does and format the
result as `str`/`repr` does (`float("24")` prints as `"24.0"`,
`float("-0")` as `"-0.0"`); `none` models `ValueError`. -/
def pyFloatStr (s : String) : Option String :=
  match pyFloatParse s with
  | none => none
  | some (neg, m, e) =>
    if m = 0 then some (if neg then "-0.0" else "0.0")
    else
      let me := stripTrailZeros m e
      some (String.mk ((if neg then ['-'] else []) ++ pyReprPos me.1 me.2))

/-- The per-symbol failures of the geometry normalizer: no usable
size information (`MissingGeometry`, logged as "Neither viewBox nor
size attributes found"), or non-numeric size values
(`UnparsableGeometry`, logged as "Could not parse width/height").
Either failure makes `process_svg` return before writing, so no
output artifact is produced for the symbol. -/
inductive GeomError where
  | missingGeometry
  | unparsableGeometry
deriving DecidableEq, Repr

/-- The unconditional final canonicalization: `root.set("width",
"10mm"); root.set("height", "10mm")`. -/
def set10mm (a : List XAttr) : List XAttr :=
  setAttr (setAttr a "width" "10mm") "height" "10mm"

/-- The Geometry Normalizer of `process_svg` (build.py lines
246-271): with `width`/`height`/`viewBox` read off the root (Python
truthiness, so an empty string counts as absent): if the size is not
present, fail with `MissingGeometry` unless a viewBox is present;
otherwise if no viewBox is present, synthesize
`viewBox = f"0 0 {float(width)} {float(height)}"`, failing with
`UnparsableGeometry` when `float` raises; in every surviving case
finish by setting `width` and `height` to `10mm`. -/
def geometryNormalize (t : XTree) : Except GeomError XTree :=
  let width := getAttr t.rootAttrib "width"
  let height := getAttr t.rootAttrib "height"
  let viewBox := getAttr t.rootAttrib "viewBox"
  if !(truthyO width && truthyO height) then
    if !truthyO viewBox then .error .missingGeometry
    else .ok ⟨t.rootNs, t.rootTag, set10mm t.rootAttrib, t.rootChildren⟩
  else if !truthyO viewBox then
    match pyFloatStr (width.getD ""), pyFloatStr (height.getD "") with
    | some fw, some fh =>
        .ok ⟨t.rootNs, t.rootTag,
             set10mm (setAttr t.rootAttrib "viewBox" ("0 0 " ++ fw ++ " " ++ fh)),
             t.rootChildren⟩
    | _, _ => .error .unparsableGeometry
  else .ok ⟨t.rootNs, t.rootTag, set10mm t.rootAttrib, t.rootChildren⟩

/-- The whole per-document tree transformation of `process_svg`: the
Structural Filter followed by the Geometry Normalizer.  An `.ok`
result is what gets serialized to the processed-output location; an
`.error` result means the symbol is logged and skipped with no
artifact written. -/
def process_svg (t : XTree) : Except GeomError XTree :=
  geometryNormalize (structuralFilter t)

/-! ## Symbol records and the metadata fold

`Symbol` (build.py lines 29-43) and the fold of `process_wikimedia`
(lines 130-147) that builds the reference-id → record mapping with
last-write-wins collision handling and a logged warning on genuine
conflicts. -/

namespace Build

/-- The frozen dataclass `Symbol`; dataclass equality compares all
fields. -/
structure Symbol where
  reference : String
  title : String
  user : String
  userid : Int
  url : String
  license : String
  license_url : String
  description : String
  description_url : String
deriving DecidableEq, Repr

/-- Python dict lookup `m[k]` / `k in m` on the insertion-ordered
association list modelling the dict. -/
def dictGet (m : List (String × Symbol)) (k : String) : Option Symbol :=
  (m.find? (fun p => p.1 == k)).map (fun p => p.2)

/-- Python dict assignment `m[k] = v`: overwrite in place when the
key exists, append otherwise. -/
def dictSet (m : List (String × Symbol)) (k : String) (v : Symbol) : List (String × Symbol) :=
  if m.any (fun p => p.1 == k) then
    m.map (fun p => if p.1 == k then (p.1, v) else p)
  else m ++ [(k, v)]

/-- One iteration of the `process_wikimedia` loop body for an
already-constructed record `new` (build.py lines 142-147): warn iff
the reference is already bound to a record differing in some field
(`ref in symbols and symbols[ref] != new`), then assign
`symbols[ref] = new`.  The warning log is modelled as the list of
references warned about, in order. -/
def symbolFoldStep (acc : List (String × Symbol) × List String) (new : Symbol) :
    List (String × Symbol) × List String :=
  let warned :=
    match dictGet acc.1 new.reference with
    | some old => decide (old ≠ new)
    | none => false
  (dictSet acc.1 new.reference new, if warned then acc.2 ++ [new.reference] else acc.2)

/-- The fold of `process_wikimedia` over the records it constructs,
starting from the empty dict: returns the final mapping and the
conflict warnings in order. -/
def process_wikimedia_fold (records : List Symbol) : List (String × Symbol) × List String :=
  records.foldl symbolFoldStep ([], [])

end Build

/-! ## Invariants of the Structural Filter

Boolean predicates over node lists used to state what each phase
establishes and what the later phases preserve; they drive the
idempotence and absence theorems. -/

/-- No comment node anywhere in the list or below it. -/
def noComments : List XNode → Bool
  | [] => true
  | .comment _ :: _ => false
  | .elem _ _ _ cs :: rest => noComments cs && noComments rest
  | .text _ :: rest => noComments rest

/-- Every element in the list and below it satisfies `p` on its
namespace, local name and attributes. -/
def allElems (p : Option String → String → List XAttr → Bool) : List XNode → Bool
  | [] => true
  | .elem ns t a cs :: rest => p ns t a && allElems p cs && allElems p rest
  | .text _ :: rest => allElems p rest
  | .comment _ :: rest => allElems p rest

/-- What the namespace/denylist pass guarantees of every surviving
element: it passes the keep test and carries only un-namespaced
attributes. -/
def keepCleanP (ns : Option String) (tag : String) (a : List XAttr) : Bool :=
  keepElem ns tag && a.all (fun x => x.ns == none)

/-- What one gray pass guarantees: no element left with the given
local name whose given attribute contains `#999`. -/
def noGrayP (tag attrName : String) (_ns : Option String) (t : String) (a : List XAttr) : Bool :=
  !(t == tag && has999 a attrName)

theorem noComments_stripCommentsL (l : List XNode) : noComments (stripCommentsL l) = true := by
  induction l using stripCommentsL.induct <;> simp_all [stripCommentsL, noComments]

theorem stripCommentsL_of_noComments (l : List XNode) (h : noComments l = true) :
    stripCommentsL l = l := by
  induction l using stripCommentsL.induct <;> simp_all [stripCommentsL, noComments]

theorem allElems_keepCleanP_nsFilterL (l : List XNode) :
    allElems keepCleanP (nsFilterL l) = true := by
  induction l using nsFilterL.induct with
  | case1 => simp [nsFilterL, allElems]
  | case2 ns t a cs rest hkeep ih1 ih2 =>
      simp only [nsFilterL, hkeep, if_true, allElems, ih1, ih2, Bool.and_true]
      simp only [keepCleanP, hkeep, Bool.true_and, stripNsAttrs, List.all_eq_true]
      intro x hx
      exact (List.mem_filter.mp hx).2
  | case3 ns t a cs rest hkeep ih => simp_all [nsFilterL, allElems]
  | case4 s rest ih => simp_all [nsFilterL, allElems]
  | case5 s rest ih => simp_all [nsFilterL, allElems]

theorem nsFilterL_of_keepClean (l : List XNode) (h : allElems keepCleanP l = true) :
    nsFilterL l = l := by
  induction l using nsFilterL.induct with
  | case1 => simp [nsFilterL]
  | case2 ns t a cs rest hkeep ih1 ih2 =>
      simp only [allElems, Bool.and_eq_true, keepCleanP] at h
      obtain ⟨⟨⟨hk, hattrs⟩, hcs⟩, hrest⟩ := h
      have hstrip : stripNsAttrs a = a := by
        apply List.filter_eq_self.mpr
        intro x hx
        exact List.all_eq_true.mp hattrs x hx
      simp [nsFilterL, hkeep, hstrip, ih1 hcs, ih2 hrest]
  | case3 ns t a cs rest hkeep ih =>
      simp only [allElems, Bool.and_eq_true, keepCleanP] at h
      exact absurd h.1.1.1 (by simp [hkeep])
  | case4 s rest ih => simp_all [nsFilterL, allElems]
  | case5 s rest ih => simp_all [nsFilterL, allElems]

theorem noComments_nsFilterL (l : List XNode) (h : noComments l = true) :
    noComments (nsFilterL l) = true := by
  induction l using nsFilterL.induct with
  | case1 => simp [nsFilterL, noComments]
  | case2 ns t a cs rest hkeep ih1 ih2 => simp_all [nsFilterL, noComments, hkeep]
  | case3 ns t a cs rest hkeep ih => simp_all [nsFilterL, noComments, hkeep]
  | case4 s rest ih => simp_all [nsFilterL, noComments]
  | case5 s rest ih => simp_all [nsFilterL, noComments]



theorem defsFilterL_of_keepClean (l : List XNode) (h : allElems keepCleanP l = true) :
    defsFilterL l = l := by
  induction l using defsFilterL.induct with
  | case1 => simp [defsFilterL]
  | case2 ns t a cs rest hdefs ih =>
      simp only [allElems, Bool.and_eq_true, keepCleanP, keepElem] at h
      simp only [Bool.and_eq_true, beq_iff_eq, bne_iff_ne] at h hdefs
      exact absurd hdefs.2 h.1.1.1.2
  | case3 ns t a cs rest hdefs ih1 ih2 =>
      simp only [allElems, Bool.and_eq_true] at h
      unfold defsFilterL
      rw [if_neg hdefs]
      rw [ih1 h.1.2, ih2 h.2]
  | case4 s rest ih => simp_all [defsFilterL, allElems]
  | case5 s rest ih => simp_all [defsFilterL, allElems]

theorem allElems_defsFilterL (p : Option String → String → List XAttr → Bool)
    (l : List XNode) (h : allElems p l = true) : allElems p (defsFilterL l) = true := by
  induction l using defsFilterL.induct with
  | case1 => simp [defsFilterL, allElems]
  | case2 ns t a cs rest hdefs ih =>
      unfold defsFilterL
      rw [if_pos hdefs]
      simp only [allElems, Bool.and_eq_true] at h
      exact ih h.2
  | case3 ns t a cs rest hdefs ih1 ih2 =>
      unfold defsFilterL
      rw [if_neg hdefs]
      simp only [allElems, Bool.and_eq_true] at h ⊢
      exact ⟨⟨h.1.1, ih1 h.1.2⟩, ih2 h.2⟩
  | case4 s rest ih => simp_all [defsFilterL, allElems]
  | case5 s rest ih => simp_all [defsFilterL, allElems]

theorem noComments_defsFilterL (l : List XNode) (h : noComments l = true) :
    noComments (defsFilterL l) = true := by
  induction l using defsFilterL.induct with
  | case1 => simp [defsFilterL, noComments]
  | case2 ns t a cs rest hdefs ih =>
      unfold defsFilterL
      rw [if_pos hdefs]
      simp only [noComments, Bool.and_eq_true] at h
      exact ih h.2
  | case3 ns t a cs rest hdefs ih1 ih2 =>
      unfold defsFilterL
      rw [if_neg hdefs]
      simp only [noComments, Bool.and_eq_true] at h ⊢
      exact ⟨ih1 h.1, ih2 h.2⟩
  | case4 s rest ih => simp_all [defsFilterL, noComments]
  | case5 s rest ih => simp_all [defsFilterL, noComments]

theorem allElems_noGrayP_grayPassL (tag attrName : String) (l : List XNode) :
    allElems (noGrayP tag attrName) (grayPassL tag attrName l) = true := by
  induction l using grayPassL.induct tag attrName with
  | case1 => simp [grayPassL, allElems]
  | case2 ns t a cs rest hmatch ih =>
      unfold grayPassL
      rw [if_pos hmatch]
      exact ih
  | case3 ns t a cs rest hmatch ih1 ih2 =>
      unfold grayPassL
      rw [if_neg hmatch]
      simp [allElems, ih1, ih2, noGrayP, hmatch]
  | case4 s rest ih => simp_all [grayPassL, allElems]
  | case5 s rest ih => simp_all [grayPassL, allElems]

theorem grayPassL_of_noGray (tag attrName : String) (l : List XNode)
    (h : allElems (noGrayP tag attrName) l = true) : grayPassL tag attrName l = l := by
  induction l using grayPassL.induct tag attrName with
  | case1 => simp [grayPassL]
  | case2 ns t a cs rest hmatch ih =>
      simp only [allElems, Bool.and_eq_true, noGrayP] at h
      have := h.1.1
      rw [hmatch] at this
      simp at this
  | case3 ns t a cs rest hmatch ih1 ih2 =>
      simp only [allElems, Bool.and_eq_true] at h
      unfold grayPassL
      rw [if_neg hmatch]
      rw [ih1 h.1.2, ih2 h.2]
  | case4 s rest ih => simp_all [grayPassL, allElems]
  | case5 s rest ih => simp_all [grayPassL, allElems]

theorem allElems_grayPassL (p : Option String → String → List XAttr → Bool)
    (tag attrName : String) (l : List XNode) (h : allElems p l = true) :
    allElems p (grayPassL tag attrName l) = true := by
  induction l using grayPassL.induct tag attrName with
  | case1 => simp [grayPassL, allElems]
  | case2 ns t a cs rest hmatch ih =>
      unfold grayPassL
      rw [if_pos hmatch]
      simp only [allElems, Bool.and_eq_true] at h
      exact ih h.2
  | case3 ns t a cs rest hmatch ih1 ih2 =>
      unfold grayPassL
      rw [if_neg hmatch]
      simp only [allElems, Bool.and_eq_true] at h ⊢
      exact ⟨⟨h.1.1, ih1 h.1.2⟩, ih2 h.2⟩
  | case4 s rest ih => simp_all [grayPassL, allElems]
  | case5 s rest ih => simp_all [grayPassL, allElems]

theorem noComments_grayPassL (tag attrName : String) (l : List XNode)
    (h : noComments l = true) : noComments (grayPassL tag attrName l) = true := by
  induction l using grayPassL.induct tag attrName with
  | case1 => simp [grayPassL, noComments]
  | case2 ns t a cs rest hmatch ih =>
      unfold grayPassL
      rw [if_pos hmatch]
      simp only [noComments, Bool.and_eq_true] at h
      exact ih h.2
  | case3 ns t a cs rest hmatch ih1 ih2 =>
      unfold grayPassL
      rw [if_neg hmatch]
      simp only [noComments, Bool.and_eq_true] at h ⊢
      exact ⟨ih1 h.1, ih2 h.2⟩
  | case4 s rest ih => simp_all [grayPassL, noComments]
  | case5 s rest ih => simp_all [grayPassL, noComments]

theorem countElems_orphanPassL_le (l : List XNode) :
    countElems (orphanPassL l) ≤ countElems l := by
  induction l using orphanPassL.induct with
  | case1 => simp [orphanPassL, countElems]
  | case2 ns t a cs rest horph ih =>
      unfold orphanPassL
      rw [if_pos horph]
      simp only [countElems]
      omega
  | case3 ns t a cs rest horph ih1 ih2 =>
      unfold orphanPassL
      rw [if_neg horph]
      simp only [countElems]
      omega
  | case4 s rest ih => simp_all [orphanPassL, countElems]
  | case5 s rest ih => simp_all [orphanPassL, countElems]

theorem countElems_orphanPassL_lt (l : List XNode) (h : hasOrphan l = true) :
    countElems (orphanPassL l) < countElems l := by
  induction l using orphanPassL.induct with
  | case1 => simp [hasOrphan] at h
  | case2 ns t a cs rest horph ih =>
      unfold orphanPassL
      rw [if_pos horph]
      have := countElems_orphanPassL_le rest
      simp only [countElems]
      omega
  | case3 ns t a cs rest horph ih1 ih2 =>
      unfold orphanPassL
      rw [if_neg horph]
      unfold hasOrphan at h
      simp only [Bool.or_eq_true] at h
      simp only [countElems]
      have hle1 := countElems_orphanPassL_le cs
      have hle2 := countElems_orphanPassL_le rest
      rcases h with (h | h) | h
      · exact absurd h horph
      · have := ih1 h
        omega
      · have := ih2 h
        omega
  | case4 s rest ih => simp_all [orphanPassL, countElems, hasOrphan]
  | case5 s rest ih => simp_all [orphanPassL, countElems, hasOrphan]

theorem hasOrphan_of_countElems_zero (l : List XNode) (h : countElems l = 0) :
    hasOrphan l = false := by
  induction l using orphanPassL.induct with
  | case1 => simp [hasOrphan]
  | case2 ns t a cs rest horph ih => simp [countElems] at h
  | case3 ns t a cs rest horph ih1 ih2 => simp [countElems] at h
  | case4 s rest ih => simp_all [hasOrphan, countElems]
  | case5 s rest ih => simp_all [hasOrphan, countElems]

theorem hasOrphan_orphanFix (fuel : Nat) (l : List XNode) (h : countElems l ≤ fuel) :
    hasOrphan (orphanFix fuel l) = false := by
  induction fuel generalizing l with
  | zero =>
      simp only [orphanFix]
      exact hasOrphan_of_countElems_zero l (Nat.le_zero.mp h)
  | succ fuel ih =>
      unfold orphanFix
      by_cases horph : hasOrphan l = true
      · rw [if_pos horph]
        exact ih (orphanPassL l) (by have := countElems_orphanPassL_lt l horph; omega)
      · rw [if_neg horph]
        simpa using horph

theorem orphanFix_of_not_hasOrphan (fuel : Nat) (l : List XNode) (h : hasOrphan l = false) :
    orphanFix fuel l = l := by
  cases fuel with
  | zero => rfl
  | succ fuel => simp [orphanFix, h]

theorem allElems_orphanPassL (p : Option String → String → List XAttr → Bool)
    (l : List XNode) (h : allElems p l = true) : allElems p (orphanPassL l) = true := by
  induction l using orphanPassL.induct with
  | case1 => simp [orphanPassL, allElems]
  | case2 ns t a cs rest horph ih =>
      unfold orphanPassL
      rw [if_pos horph]
      simp only [allElems, Bool.and_eq_true] at h
      exact ih h.2
  | case3 ns t a cs rest horph ih1 ih2 =>
      unfold orphanPassL
      rw [if_neg horph]
      simp only [allElems, Bool.and_eq_true] at h ⊢
      exact ⟨⟨h.1.1, ih1 h.1.2⟩, ih2 h.2⟩
  | case4 s rest ih => simp_all [orphanPassL, allElems]
  | case5 s rest ih => simp_all [orphanPassL, allElems]

theorem noComments_orphanPassL (l : List XNode) (h : noComments l = true) :
    noComments (orphanPassL l) = true := by
  induction l using orphanPassL.induct with
  | case1 => simp [orphanPassL, noComments]
  | case2 ns t a cs rest horph ih =>
      unfold orphanPassL
      rw [if_pos horph]
      simp only [noComments, Bool.and_eq_true] at h
      exact ih h.2
  | case3 ns t a cs rest horph ih1 ih2 =>
      unfold orphanPassL
      rw [if_neg horph]
      simp only [noComments, Bool.and_eq_true] at h ⊢
      exact ⟨ih1 h.1, ih2 h.2⟩
  | case4 s rest ih => simp_all [orphanPassL, noComments]
  | case5 s rest ih => simp_all [orphanPassL, noComments]

theorem allElems_orphanFix (p : Option String → String → List XAttr → Bool)
    (fuel : Nat) (l : List XNode) (h : allElems p l = true) :
    allElems p (orphanFix fuel l) = true := by
  induction fuel generalizing l with
  | zero => simpa [orphanFix] using h
  | succ fuel ih =>
      unfold orphanFix
      by_cases horph : hasOrphan l = true
      · rw [if_pos horph]
        exact ih (orphanPassL l) (allElems_orphanPassL p l h)
      · rw [if_neg horph]
        exact h

theorem noComments_orphanFix (fuel : Nat) (l : List XNode) (h : noComments l = true) :
    noComments (orphanFix fuel l) = true := by
  induction fuel generalizing l with
  | zero => simpa [orphanFix] using h
  | succ fuel ih =>
      unfold orphanFix
      by_cases horph : hasOrphan l = true
      · rw [if_pos horph]
        exact ih (orphanPassL l) (noComments_orphanPassL l h)
      · rw [if_neg horph]
        exact h

theorem stripNsAttrs_idem (a : List XAttr) :
    stripNsAttrs (stripNsAttrs a) = stripNsAttrs a := by
  simp [stripNsAttrs, List.filter_filter]

theorem filterRootAttrs_idem (ns : Option String) (tag : String) (a : List XAttr) :
    filterRootAttrs ns tag (filterRootAttrs ns tag a) = filterRootAttrs ns tag a := by
  by_cases h : keepElem ns tag = true <;> simp [filterRootAttrs, h, stripNsAttrs_idem]

/-- Unfolding equation for `filterChildrenL`. -/
theorem filterChildrenL_eq (l : List XNode) :
    filterChildrenL l =
      orphanFix (countElems (grayAllL (defsFilterL (nsFilterL (stripCommentsL l)))))
        (grayAllL (defsFilterL (nsFilterL (stripCommentsL l)))) := rfl

theorem noComments_filterChildrenL (l : List XNode) :
    noComments (filterChildrenL l) = true := by
  rw [filterChildrenL_eq]
  apply noComments_orphanFix
  unfold grayAllL
  apply noComments_grayPassL
  apply noComments_grayPassL
  apply noComments_grayPassL
  apply noComments_grayPassL
  apply noComments_defsFilterL
  apply noComments_nsFilterL
  exact noComments_stripCommentsL l

theorem keepClean_filterChildrenL (l : List XNode) :
    allElems keepCleanP (filterChildrenL l) = true := by
  rw [filterChildrenL_eq]
  apply allElems_orphanFix
  unfold grayAllL
  apply allElems_grayPassL
  apply allElems_grayPassL
  apply allElems_grayPassL
  apply allElems_grayPassL
  apply allElems_defsFilterL
  exact allElems_keepCleanP_nsFilterL _

theorem noGray_g_stroke_filterChildrenL (l : List XNode) :
    allElems (noGrayP "g" "stroke") (filterChildrenL l) = true := by
  rw [filterChildrenL_eq]
  apply allElems_orphanFix
  unfold grayAllL
  apply allElems_grayPassL
  apply allElems_grayPassL
  apply allElems_grayPassL
  exact allElems_noGrayP_grayPassL _ _ _

theorem noGray_g_style_filterChildrenL (l : List XNode) :
    allElems (noGrayP "g" "style") (filterChildrenL l) = true := by
  rw [filterChildrenL_eq]
  apply allElems_orphanFix
  unfold grayAllL
  apply allElems_grayPassL
  apply allElems_grayPassL
  exact allElems_noGrayP_grayPassL _ _ _

theorem noGray_path_stroke_filterChildrenL (l : List XNode) :
    allElems (noGrayP "path" "stroke") (filterChildrenL l) = true := by
  rw [filterChildrenL_eq]
  apply allElems_orphanFix
  unfold grayAllL
  apply allElems_grayPassL
  exact allElems_noGrayP_grayPassL _ _ _

theorem noGray_path_style_filterChildrenL (l : List XNode) :
    allElems (noGrayP "path" "style") (filterChildrenL l) = true := by
  rw [filterChildrenL_eq]
  apply allElems_orphanFix
  unfold grayAllL
  exact allElems_noGrayP_grayPassL _ _ _

theorem hasOrphan_filterChildrenL (l : List XNode) :
    hasOrphan (filterChildrenL l) = false := by
  rw [filterChildrenL_eq]
  exact hasOrphan_orphanFix _ _ (Nat.le_refl _)

theorem filterChildrenL_idem (l : List XNode) :
    filterChildrenL (filterChildrenL l) = filterChildrenL l := by
  have h1 : stripCommentsL (filterChildrenL l) = filterChildrenL l :=
    stripCommentsL_of_noComments _ (noComments_filterChildrenL l)
  have h2 : nsFilterL (filterChildrenL l) = filterChildrenL l :=
    nsFilterL_of_keepClean _ (keepClean_filterChildrenL l)
  have h3 : defsFilterL (filterChildrenL l) = filterChildrenL l :=
    defsFilterL_of_keepClean _ (keepClean_filterChildrenL l)
  have h4 : grayAllL (filterChildrenL l) = filterChildrenL l := by
    unfold grayAllL
    rw [grayPassL_of_noGray _ _ _ (noGray_g_stroke_filterChildrenL l)]
    rw [grayPassL_of_noGray _ _ _ (noGray_g_style_filterChildrenL l)]
    rw [grayPassL_of_noGray _ _ _ (noGray_path_stroke_filterChildrenL l)]
    rw [grayPassL_of_noGray _ _ _ (noGray_path_style_filterChildrenL l)]
  rw [filterChildrenL_eq (filterChildrenL l), h1, h2, h3, h4]
  exact orphanFix_of_not_hasOrphan _ _ (hasOrphan_filterChildrenL l)

theorem getAttr_cons (x : XAttr) (xs : List XAttr) (k : String) :
    getAttr (x :: xs) k =
      if (x.ns == none && x.key == k) = true then some x.val else getAttr xs k := by
  by_cases h : (x.ns == none && x.key == k) = true <;> simp [getAttr, List.find?_cons, h]

theorem getAttr_stripNsAttrs (a : List XAttr) (k : String) :
    getAttr (stripNsAttrs a) k = getAttr a k := by
  induction a with
  | nil => rfl
  | cons x xs ih =>
      by_cases hns : (x.ns == none) = true
      · rw [show stripNsAttrs (x :: xs) = x :: stripNsAttrs xs by simp [stripNsAttrs, hns]]
        rw [getAttr_cons, getAttr_cons, ih]
      · rw [show stripNsAttrs (x :: xs) = stripNsAttrs xs by simp [stripNsAttrs]; simp at hns; simp [hns]]
        rw [getAttr_cons, ih]
        simp [hns]

theorem getAttr_filterRootAttrs (ns : Option String) (tag : String) (a : List XAttr)
    (k : String) : getAttr (filterRootAttrs ns tag a) k = getAttr a k := by
  by_cases h : keepElem ns tag = true <;> simp [filterRootAttrs, h, getAttr_stripNsAttrs]

theorem getAttr_structuralFilter (t : XTree) (k : String) :
    getAttr (structuralFilter t).rootAttrib k = getAttr t.rootAttrib k := by
  simp [structuralFilter, getAttr_filterRootAttrs]

theorem getAttr_setAttr_self (a : List XAttr) (k v : String) :
    getAttr (setAttr a k v) k = some v := by
  induction a with
  | nil => simp [setAttr, getAttr, List.find?]
  | cons x xs ih =>
      by_cases hx : (x.ns == none && x.key == k) = true
      · have hany : ((x :: xs).any (fun a => a.ns == none && a.key == k)) = true := by
          simp [List.any_cons, hx]
        rw [setAttr, if_pos hany]
        simp only [List.map_cons, if_pos hx]
        rw [getAttr_cons]
        simp_all
      · have hany : ((x :: xs).any (fun a => a.ns == none && a.key == k)) =
            (xs.any (fun a => a.ns == none && a.key == k)) := by
          simp [List.any_cons, hx]
        by_cases htail : (xs.any (fun a => a.ns == none && a.key == k)) = true
        · rw [setAttr, if_pos (by rw [hany]; exact htail)]
          simp only [List.map_cons, if_neg hx]
          rw [getAttr_cons, if_neg hx]
          rw [setAttr, if_pos htail] at ih
          exact ih
        · rw [setAttr, if_neg (by rw [hany]; exact htail)]
          rw [List.cons_append, getAttr_cons, if_neg hx]
          rw [setAttr, if_neg htail] at ih
          exact ih

theorem getAttr_setAttr_ne (a : List XAttr) (k v q : String) (hne : q ≠ k) :
    getAttr (setAttr a k v) q = getAttr a q := by
  induction a with
  | nil =>
      simp only [setAttr, List.any_nil, Bool.false_eq_true, if_false, List.nil_append]
      rw [getAttr_cons]
      simp [getAttr, List.find?, Ne.symm hne]
  | cons x xs ih =>
      by_cases hx : (x.ns == none && x.key == k) = true
      · have hany : ((x :: xs).any (fun a => a.ns == none && a.key == k)) = true := by
          simp [List.any_cons, hx]
        rw [setAttr, if_pos hany]
        simp only [List.map_cons, if_pos hx]
        rw [getAttr_cons, getAttr_cons]
        have hkq : (x.key == q) = false := by
          simp only [Bool.and_eq_true, beq_iff_eq] at hx
          simp [hx.2, Ne.symm hne]
        simp only [hkq, Bool.and_false, Bool.false_eq_true, if_false]
        -- the tail is mapped, but entries matching k have key k ≠ q, and others are unchanged
        clear hany hx ih
        induction xs with
        | nil => simp [getAttr]
        | cons y ys ihy =>
            by_cases hy : (y.ns == none && y.key == k) = true
            · simp only [List.map_cons, if_pos hy]
              rw [getAttr_cons, getAttr_cons]
              have : (y.key == q) = false := by
                simp only [Bool.and_eq_true, beq_iff_eq] at hy
                simp [hy.2, Ne.symm hne]
              simp only [this, Bool.and_false, Bool.false_eq_true, if_false]
              exact ihy
            · simp only [List.map_cons, if_neg hy]
              rw [getAttr_cons, getAttr_cons]
              by_cases hq : (y.ns == none && y.key == q) = true
              · simp [hq]
              · simp only [hq, Bool.false_eq_true, if_false]
                exact ihy
      · have hany : ((x :: xs).any (fun a => a.ns == none && a.key == k)) =
            (xs.any (fun a => a.ns == none && a.key == k)) := by
          simp [List.any_cons, hx]
        by_cases htail : (xs.any (fun a => a.ns == none && a.key == k)) = true
        · rw [setAttr, if_pos (by rw [hany]; exact htail)]
          simp only [List.map_cons, if_neg hx]
          rw [getAttr_cons, getAttr_cons]
          rw [setAttr, if_pos htail] at ih
          by_cases hq : (x.ns == none && x.key == q) = true
          · simp [hq]
          · simp only [hq, Bool.false_eq_true, if_false]
            exact ih
        · rw [setAttr, if_neg (by rw [hany]; exact htail)]
          rw [List.cons_append, getAttr_cons, getAttr_cons]
          rw [setAttr, if_neg htail] at ih
          by_cases hq : (x.ns == none && x.key == q) = true
          · simp [hq]
          · simp only [hq, Bool.false_eq_true, if_false]
            exact ih

theorem getAttr_set10mm_width (a : List XAttr) :
    getAttr (set10mm a) "width" = some "10mm" := by
  rw [set10mm, getAttr_setAttr_ne _ _ _ _ (by decide)]
  exact getAttr_setAttr_self a "width" "10mm"

theorem getAttr_set10mm_height (a : List XAttr) :
    getAttr (set10mm a) "height" = some "10mm" := by
  rw [set10mm]
  exact getAttr_setAttr_self _ "height" "10mm"

theorem getAttr_set10mm_other (a : List XAttr) (q : String) (h1 : q ≠ "width")
    (h2 : q ≠ "height") : getAttr (set10mm a) q = getAttr a q := by
  rw [set10mm, getAttr_setAttr_ne _ _ _ _ h2, getAttr_setAttr_ne _ _ _ _ h1]

/-! ## Helper equations for the claim proofs -/

/-- Unfolding equation for the Geometry Normalizer, with the three
root-attribute reads spelled out. -/
theorem geometryNormalize_eq (t : XTree) :
    geometryNormalize t =
      (if !(truthyO (getAttr t.rootAttrib "width") && truthyO (getAttr t.rootAttrib "height")) then
        if !truthyO (getAttr t.rootAttrib "viewBox") then .error .missingGeometry
        else .ok ⟨t.rootNs, t.rootTag, set10mm t.rootAttrib, t.rootChildren⟩
      else if !truthyO (getAttr t.rootAttrib "viewBox") then
        match pyFloatStr ((getAttr t.rootAttrib "width").getD ""),
              pyFloatStr ((getAttr t.rootAttrib "height").getD "") with
        | some fw, some fh =>
            .ok ⟨t.rootNs, t.rootTag,
                 set10mm (setAttr t.rootAttrib "viewBox" ("0 0 " ++ fw ++ " " ++ fh)),
                 t.rootChildren⟩
        | _, _ => .error .unparsableGeometry
      else .ok ⟨t.rootNs, t.rootTag, set10mm t.rootAttrib, t.rootChildren⟩) := rfl

/-- Formatting fact: `f"{float('24')}"` is `"24.0"`: CPython prints the float value
back with a trailing `.0`, not as the bare integer digits. -/
theorem pyFloatStr_24 : pyFloatStr "24" = some "24.0" := rfl

/-- Parsing fact: `float("24px")` raises `ValueError`: CPython's float parser does
not strip unit suffixes. -/
theorem pyFloatStr_24px : pyFloatStr "24px" = none := rfl

/-! ## Concrete documents used as counterexamples and witnesses -/

/-- A minimal well-formed icon: SVG root, `width="24" height="24"`,
no viewBox. -/
def c1ex : XTree :=
  ⟨some svgNS, "svg", [⟨none, "width", "24"⟩, ⟨none, "height", "24"⟩], []⟩

/-- An icon whose width carries a unit suffix. -/
def c2ex : XTree :=
  ⟨some svgNS, "svg", [⟨none, "width", "24px"⟩, ⟨none, "height", "24"⟩], []⟩

/-- A non-SVG root with a namespaced attribute. -/
def c4ex : XTree := ⟨none, "html", [⟨some "urn:extra", "marker", "1"⟩], []⟩

/-- An SVG root whose `viewBox` attribute is present but empty. -/
def c5ex : XTree := ⟨some svgNS, "svg", [⟨none, "viewBox", ""⟩], []⟩

/-- An SVG root with a valid viewBox and no size. -/
def c5w : XTree := ⟨some svgNS, "svg", [⟨none, "viewBox", "0 0 48 48"⟩], []⟩

/-- An SVG root with no geometry attributes at all. -/
def c6w : XTree := ⟨some svgNS, "svg", [], []⟩

/-- A document whose root itself is an empty `g`. -/
def c7ex : XTree := ⟨some svgNS, "g", [], []⟩

/-- A `g` with clean attributes whose only child is a gray path. -/
def c8ex : XTree :=
  ⟨some svgNS, "svg", [],
   [.elem (some svgNS) "g" [] [.elem (some svgNS) "path" [⟨none, "stroke", "#999999"⟩] []]]⟩

/-- A path with `style="stroke:#888888"` (the boundary case that must
survive). -/
def c8keep : XTree :=
  ⟨some svgNS, "svg", [], [.elem (some svgNS) "path" [⟨none, "style", "stroke:#888888"⟩] []]⟩

/-- A path with `style="stroke:#999999"` (the boundary case that must
be removed). -/
def c8rm : XTree :=
  ⟨some svgNS, "svg", [], [.elem (some svgNS) "path" [⟨none, "style", "stroke:#999999"⟩] []]⟩

/-- Width present, height absent, viewBox present but empty. -/
def c10ex : XTree :=
  ⟨some svgNS, "svg", [⟨none, "width", "24"⟩, ⟨none, "viewBox", ""⟩], []⟩

/-- Width present, height and viewBox absent. -/
def c10w : XTree := ⟨some svgNS, "svg", [⟨none, "width", "24"⟩], []⟩

/-! ## Claims -/

/-- C1 (amended): for every document whose root has `width="24"`,
`height="24"` and no viewBox, `process_svg` succeeds and the output
root carries `viewBox="0 0 24.0 24.0"` (the f-string formats
`float("24")` as `24.0`) together with the overwritten
`width="10mm"` and `height="10mm"`. -/
theorem claim_C1 (t : XTree)
    (hw : getAttr t.rootAttrib "width" = some "24")
    (hh : getAttr t.rootAttrib "height" = some "24")
    (hv : getAttr t.rootAttrib "viewBox" = none) :
    ∃ u, process_svg t = .ok u ∧
      getAttr u.rootAttrib "viewBox" = some "0 0 24.0 24.0" ∧
      getAttr u.rootAttrib "width" = some "10mm" ∧
      getAttr u.rootAttrib "height" = some "10mm" := by
  have gw := (getAttr_structuralFilter t "width").trans hw
  have gh := (getAttr_structuralFilter t "height").trans hh
  have gv := (getAttr_structuralFilter t "viewBox").trans hv
  refine ⟨⟨(structuralFilter t).rootNs, (structuralFilter t).rootTag,
          set10mm (setAttr (structuralFilter t).rootAttrib "viewBox" "0 0 24.0 24.0"),
          (structuralFilter t).rootChildren⟩, ?_, ?_, ?_, ?_⟩
  · show geometryNormalize (structuralFilter t) = _
    rw [geometryNormalize_eq, gw, gh, gv]
    simp [truthyO, pyFloatStr_24]
  · rw [getAttr_set10mm_other _ _ (by decide) (by decide)]
    exact getAttr_setAttr_self _ _ _
  · exact getAttr_set10mm_width _
  · exact getAttr_set10mm_height _

/-- C1 witness: the amended claim instantiated at a concrete
24-by-24 document. -/
theorem claim_C1_witness :
    getAttr c1ex.rootAttrib "width" = some "24" ∧
    getAttr c1ex.rootAttrib "height" = some "24" ∧
    getAttr c1ex.rootAttrib "viewBox" = none ∧
    (∃ u, process_svg c1ex = .ok u ∧
      getAttr u.rootAttrib "viewBox" = some "0 0 24.0 24.0" ∧
      getAttr u.rootAttrib "width" = some "10mm" ∧
      getAttr u.rootAttrib "height" = some "10mm") :=
  ⟨by decide, by decide, by decide, claim_C1 c1ex (by decide) (by decide) (by decide)⟩

/-- C1 counterexample: on the concrete 24-by-24 document the
synthesized viewBox is `0 0 24.0 24.0`, not the `0 0 24 24` the
claim states. -/
theorem claim_C1_cex :
    process_svg c1ex =
      .ok ⟨some svgNS, "svg",
           [⟨none, "width", "10mm"⟩, ⟨none, "height", "10mm"⟩,
            ⟨none, "viewBox", "0 0 24.0 24.0"⟩], []⟩ ∧
    getAttr [⟨none, "width", "10mm"⟩, ⟨none, "height", "10mm"⟩,
             ⟨none, "viewBox", "0 0 24.0 24.0"⟩] "viewBox" = some "0 0 24.0 24.0" ∧
    some ("0 0 24.0 24.0" : String) ≠ some "0 0 24 24" := by
  refine ⟨?_, by decide, by decide⟩
  simp [process_svg, c1ex, structuralFilter, filterChildrenL, grayAllL, stripCommentsL,
    nsFilterL, defsFilterL, grayPassL, orphanFix, orphanPassL, countElems, hasOrphan,
    hasElemChild, filterRootAttrs, keepElem, stripNsAttrs, svgNS, geometryNormalize,
    getAttr, setAttr, set10mm, truthyO, pyFloatStr_24, List.find?, List.any]

/-- C2: on `width="24px"` the code fails with `UnparsableGeometry`:
`float("24px")` raises `ValueError` because CPython's float parser
does not strip unit suffixes, although the code's own comment (and
the spec) say units such as `px` are stripped so that `24px` parses
as `24`. -/
theorem claim_C2 :
    process_svg c2ex = .error .unparsableGeometry ∧ pyFloatStr "24px" = none := by
  constructor
  · show geometryNormalize (structuralFilter c2ex) = _
    rw [geometryNormalize_eq]
    have gw : getAttr (structuralFilter c2ex).rootAttrib "width" = some "24px" := by
      rw [getAttr_structuralFilter]; decide
    have gh : getAttr (structuralFilter c2ex).rootAttrib "height" = some "24" := by
      rw [getAttr_structuralFilter]; decide
    have gv : getAttr (structuralFilter c2ex).rootAttrib "viewBox" = none := by
      rw [getAttr_structuralFilter]; decide
    rw [gw, gh, gv]
    simp [truthyO, pyFloatStr_24px]
  · exact pyFloatStr_24px

/-- C3: the Structural Filter is idempotent — running it a second
time on its own output changes nothing. -/
theorem claim_C3 (t : XTree) : structuralFilter (structuralFilter t) = structuralFilter t := by
  simp [structuralFilter, filterRootAttrs_idem, filterChildrenL_idem]

/-- C4 (amended): every non-root element surviving the Structural
Filter is in the SVG namespace, is not a `defs`, and carries only
un-namespaced attributes; the root itself, having no parent, is kept
whatever its namespace (and keeps its namespaced attributes when it
fails the keep test). -/
theorem claim_C4 (t : XTree) :
    allElems keepCleanP (structuralFilter t).rootChildren = true := by
  simp only [structuralFilter]
  exact keepClean_filterChildrenL _

/-- C4 counterexample: a document whose root is outside the SVG
namespace and carries a namespaced attribute passes through the
Structural Filter untouched, so the non-SVG root element and its
namespaced attribute are still present in the output, contradicting
the claim that they are absent. -/
theorem claim_C4_cex :
    structuralFilter c4ex = c4ex ∧ c4ex.rootNs ≠ some svgNS ∧
    c4ex.rootAttrib.any (fun a => a.ns != none) = true := by
  refine ⟨?_, by simp [c4ex, svgNS], by decide⟩
  simp [c4ex, structuralFilter, filterChildrenL, grayAllL, stripCommentsL, nsFilterL,
    defsFilterL, grayPassL, orphanFix, orphanPassL, countElems, hasOrphan, hasElemChild,
    filterRootAttrs, keepElem, stripNsAttrs, svgNS]

/-- C5 (amended): for every document whose root has a *nonempty*
`viewBox` attribute and no `width`/`height` attributes, `process_svg`
succeeds, the output root has `width="10mm"` and `height="10mm"`,
and its `viewBox` value is unchanged.  (An empty `viewBox` string is
falsy in Python and is treated as absent — see the counterexample.) -/
theorem claim_C5 (t : XTree) (v : String)
    (hv : getAttr t.rootAttrib "viewBox" = some v) (hne : v ≠ "")
    (hw : getAttr t.rootAttrib "width" = none)
    (hh : getAttr t.rootAttrib "height" = none) :
    ∃ u, process_svg t = .ok u ∧
      getAttr u.rootAttrib "viewBox" = some v ∧
      getAttr u.rootAttrib "width" = some "10mm" ∧
      getAttr u.rootAttrib "height" = some "10mm" := by
  have gw := (getAttr_structuralFilter t "width").trans hw
  have gh := (getAttr_structuralFilter t "height").trans hh
  have gv := (getAttr_structuralFilter t "viewBox").trans hv
  refine ⟨⟨(structuralFilter t).rootNs, (structuralFilter t).rootTag,
          set10mm (structuralFilter t).rootAttrib,
          (structuralFilter t).rootChildren⟩, ?_, ?_, ?_, ?_⟩
  · show geometryNormalize (structuralFilter t) = _
    rw [geometryNormalize_eq, gw, gh, gv]
    simp [truthyO, hne]
  · rw [getAttr_set10mm_other _ _ (by decide) (by decide)]
    exact gv
  · exact getAttr_set10mm_width _
  · exact getAttr_set10mm_height _

/-- C5 witness: the amended claim instantiated at a concrete
viewBox-only document. -/
theorem claim_C5_witness :
    getAttr c5w.rootAttrib "viewBox" = some "0 0 48 48" ∧ ("0 0 48 48" : String) ≠ "" ∧
    getAttr c5w.rootAttrib "width" = none ∧ getAttr c5w.rootAttrib "height" = none ∧
    (∃ u, process_svg c5w = .ok u ∧
      getAttr u.rootAttrib "viewBox" = some "0 0 48 48" ∧
      getAttr u.rootAttrib "width" = some "10mm" ∧
      getAttr u.rootAttrib "height" = some "10mm") :=
  ⟨by decide, by decide, by decide, by decide,
   claim_C5 c5w "0 0 48 48" (by decide) (by decide) (by decide) (by decide)⟩

/-- C5 counterexample: a root with the `viewBox` attribute present
but empty and no size fails with `MissingGeometry` — Python
truthiness treats the empty attribute value as absent — although the
claim, which only asks for the attribute to be present, says
processing succeeds. -/
theorem claim_C5_cex :
    process_svg c5ex = .error .missingGeometry ∧
    getAttr c5ex.rootAttrib "viewBox" = some "" ∧
    getAttr c5ex.rootAttrib "width" = none ∧
    getAttr c5ex.rootAttrib "height" = none := by
  refine ⟨?_, by decide, by decide, by decide⟩
  show geometryNormalize (structuralFilter c5ex) = _
  rw [geometryNormalize_eq]
  have gw : getAttr (structuralFilter c5ex).rootAttrib "width" = none := by
    rw [getAttr_structuralFilter]; decide
  have gh : getAttr (structuralFilter c5ex).rootAttrib "height" = none := by
    rw [getAttr_structuralFilter]; decide
  have gv : getAttr (structuralFilter c5ex).rootAttrib "viewBox" = some "" := by
    rw [getAttr_structuralFilter]; decide
  rw [gw, gh, gv]
  simp [truthyO]

/-- C6: for every document whose root has neither `width`/`height`
nor `viewBox` attributes, `process_svg` fails with `MissingGeometry`;
the error return happens before the tree is written, so no output
artifact is produced for the symbol. -/
theorem claim_C6 (t : XTree)
    (hw : getAttr t.rootAttrib "width" = none)
    (hh : getAttr t.rootAttrib "height" = none)
    (hv : getAttr t.rootAttrib "viewBox" = none) :
    process_svg t = .error .missingGeometry := by
  have gw := (getAttr_structuralFilter t "width").trans hw
  have gh := (getAttr_structuralFilter t "height").trans hh
  have gv := (getAttr_structuralFilter t "viewBox").trans hv
  show geometryNormalize (structuralFilter t) = _
  rw [geometryNormalize_eq, gw, gh, gv]
  simp [truthyO]

/-- C6 witness: the claim instantiated at a bare SVG root with no
attributes. -/
theorem claim_C6_witness :
    getAttr c6w.rootAttrib "width" = none ∧
    getAttr c6w.rootAttrib "height" = none ∧
    getAttr c6w.rootAttrib "viewBox" = none ∧
    process_svg c6w = .error .missingGeometry :=
  ⟨by decide, by decide, by decide, claim_C6 c6w (by decide) (by decide) (by decide)⟩

/-- C7 (amended): after the Structural Filter no *non-root* `g`
element with no element children (equivalently, with no element
descendants) remains, at any depth; the root, which the orphan scan
`.//*` never visits, survives even when it is itself an empty `g`. -/
theorem claim_C7 (t : XTree) : hasOrphan (structuralFilter t).rootChildren = false := by
  simp only [structuralFilter]
  exact hasOrphan_filterChildrenL _

/-- C7 counterexample: a document whose root is an empty `g` passes
the filter unchanged, so a `g` with no element descendants does
survive, contradicting the claim's "at every nesting depth". -/
theorem claim_C7_cex :
    structuralFilter c7ex = c7ex ∧ c7ex.rootTag = "g" ∧
    hasElemChild c7ex.rootChildren = false := by
  refine ⟨?_, by decide, by decide⟩
  simp [c7ex, structuralFilter, filterChildrenL, grayAllL, stripCommentsL, nsFilterL,
    defsFilterL, grayPassL, orphanFix, orphanPassL, countElems, hasOrphan, hasElemChild,
    filterRootAttrs, keepElem, stripNsAttrs, svgNS]

/-- C8 (amended): the Structural Filter removes every non-root `g`
or `path` whose `stroke` or `style` attribute contains the substring
`#999` — none survives the whole filter — and on the boundary cases a
`path` with `style="stroke:#999999"` is removed while a `path` with
`style="stroke:#888888"` survives; but an element *without* the
substring may still be removed for other reasons (a discarded
ancestor, the `defs`/namespace rules, or empty-group pruning), so
"kept otherwise" holds only in the absence of those. -/
theorem claim_C8 :
    (∀ t : XTree, allElems (noGrayP "g" "stroke") (structuralFilter t).rootChildren = true) ∧
    (∀ t : XTree, allElems (noGrayP "g" "style") (structuralFilter t).rootChildren = true) ∧
    (∀ t : XTree, allElems (noGrayP "path" "stroke") (structuralFilter t).rootChildren = true) ∧
    (∀ t : XTree, allElems (noGrayP "path" "style") (structuralFilter t).rootChildren = true) ∧
    structuralFilter c8keep = c8keep ∧
    structuralFilter c8rm = ⟨some svgNS, "svg", [], []⟩ := by
  refine ⟨fun t => ?_, fun t => ?_, fun t => ?_, fun t => ?_, ?_, ?_⟩
  · simp only [structuralFilter]; exact noGray_g_stroke_filterChildrenL _
  · simp only [structuralFilter]; exact noGray_g_style_filterChildrenL _
  · simp only [structuralFilter]; exact noGray_path_stroke_filterChildrenL _
  · simp only [structuralFilter]; exact noGray_path_style_filterChildrenL _
  · simp [c8keep, structuralFilter, filterChildrenL, grayAllL, stripCommentsL, nsFilterL,
      defsFilterL, grayPassL, orphanFix, orphanPassL, countElems, hasOrphan, hasElemChild,
      filterRootAttrs, keepElem, stripNsAttrs, svgNS, has999, strContains, listHasSub,
      getAttr, List.find?]
  · simp [c8rm, structuralFilter, filterChildrenL, grayAllL, stripCommentsL, nsFilterL,
      defsFilterL, grayPassL, orphanFix, orphanPassL, countElems, hasOrphan, hasElemChild,
      filterRootAttrs, keepElem, stripNsAttrs, svgNS, has999, strContains, listHasSub,
      getAttr, List.find?]

/-- C8 counterexample: a `g` whose `stroke`/`style` carry no `#999`
is nevertheless removed — its only child is a gray path, the path's
removal empties it, and the orphan pass deletes it — contradicting
the claim's "keeps it otherwise". -/
theorem claim_C8_cex :
    structuralFilter c8ex = ⟨some svgNS, "svg", [], []⟩ ∧
    has999 [] "stroke" = false ∧ has999 [] "style" = false := by
  refine ⟨?_, by decide, by decide⟩
  simp [c8ex, structuralFilter, filterChildrenL, grayAllL, stripCommentsL, nsFilterL,
    defsFilterL, grayPassL, orphanFix, orphanPassL, countElems, hasOrphan, hasElemChild,
    filterRootAttrs, keepElem, stripNsAttrs, svgNS, has999, strContains, listHasSub,
    getAttr, List.find?]

/-- C9: folding two Symbol Records with the same reference-id gives
last-write-wins — the later record is the one in the mapping — and
the duplicate warning fires exactly when the records differ in some
field. -/
theorem claim_C9 (s1 s2 : Build.Symbol) (href : s1.reference = s2.reference) :
    Build.dictGet (Build.process_wikimedia_fold [s1, s2]).1 s2.reference = some s2 ∧
    (Build.process_wikimedia_fold [s1, s2]).2 =
      (if s1 = s2 then [] else [s2.reference]) := by
  constructor
  · by_cases h : s1 = s2 <;>
      simp [Build.process_wikimedia_fold, Build.symbolFoldStep, Build.dictGet, Build.dictSet,
        href, h, List.find?, List.any]
  · by_cases h : s1 = s2 <;>
      simp [Build.process_wikimedia_fold, Build.symbolFoldStep, Build.dictGet, Build.dictSet,
        href, h, List.find?, List.any]

/-- C9 witness: two concrete records sharing reference `0001` but
with different license fields — the second one ends up in the
mapping and exactly one warning is recorded. -/
theorem claim_C9_witness :
    (⟨"0001", "t", "u", 7, "url", "CC BY-SA 4.0", "lu", "d", "du"⟩ : Build.Symbol).reference =
      (⟨"0001", "t", "u", 7, "url", "Public domain", "lu", "d", "du"⟩ : Build.Symbol).reference ∧
    (Build.dictGet
        (Build.process_wikimedia_fold
          [⟨"0001", "t", "u", 7, "url", "CC BY-SA 4.0", "lu", "d", "du"⟩,
           ⟨"0001", "t", "u", 7, "url", "Public domain", "lu", "d", "du"⟩]).1 "0001" =
      some ⟨"0001", "t", "u", 7, "url", "Public domain", "lu", "d", "du"⟩ ∧
    (Build.process_wikimedia_fold
          [⟨"0001", "t", "u", 7, "url", "CC BY-SA 4.0", "lu", "d", "du"⟩,
           ⟨"0001", "t", "u", 7, "url", "Public domain", "lu", "d", "du"⟩]).2 =
      (if (⟨"0001", "t", "u", 7, "url", "CC BY-SA 4.0", "lu", "d", "du"⟩ : Build.Symbol) =
          ⟨"0001", "t", "u", 7, "url", "Public domain", "lu", "d", "du"⟩ then []
       else ["0001"])) :=
  ⟨rfl, claim_C9 _ _ rfl⟩

/-- C10 (amended): when exactly one of `width`/`height` is present
on the root, the size counts as absent: with no viewBox the document
fails with `MissingGeometry` (the lone value is never parsed), and
with a *nonempty* viewBox present it succeeds, keeping the viewBox
and setting both sizes to `10mm`.  (An empty viewBox string again
counts as absent — see the counterexample.) -/
theorem claim_C10 (t : XTree)
    (hone : (getAttr t.rootAttrib "width" = none ∧
              (getAttr t.rootAttrib "height").isSome = true) ∨
            ((getAttr t.rootAttrib "width").isSome = true ∧
              getAttr t.rootAttrib "height" = none)) :
    (getAttr t.rootAttrib "viewBox" = none → process_svg t = .error .missingGeometry) ∧
    (∀ v, getAttr t.rootAttrib "viewBox" = some v → v ≠ "" →
      ∃ u, process_svg t = .ok u ∧
        getAttr u.rootAttrib "viewBox" = some v ∧
        getAttr u.rootAttrib "width" = some "10mm" ∧
        getAttr u.rootAttrib "height" = some "10mm") := by
  have hsize : (truthyO (getAttr (structuralFilter t).rootAttrib "width") &&
      truthyO (getAttr (structuralFilter t).rootAttrib "height")) = false := by
    rcases hone with ⟨hw, _⟩ | ⟨_, hh⟩
    · rw [getAttr_structuralFilter, hw]
      simp [truthyO]
    · rw [getAttr_structuralFilter t "height", hh]
      simp [truthyO]
  constructor
  · intro hv
    have gv := (getAttr_structuralFilter t "viewBox").trans hv
    show geometryNormalize (structuralFilter t) = _
    rw [geometryNormalize_eq, hsize, gv]
    simp [truthyO]
  · intro v hv hne
    have gv := (getAttr_structuralFilter t "viewBox").trans hv
    refine ⟨⟨(structuralFilter t).rootNs, (structuralFilter t).rootTag,
            set10mm (structuralFilter t).rootAttrib,
            (structuralFilter t).rootChildren⟩, ?_, ?_, ?_, ?_⟩
    · show geometryNormalize (structuralFilter t) = _
      rw [geometryNormalize_eq, hsize, gv]
      simp [truthyO, hne]
    · rw [getAttr_set10mm_other _ _ (by decide) (by decide)]
      exact gv
    · exact getAttr_set10mm_width _
    · exact getAttr_set10mm_height _

/-- C10 witness: the amended claim instantiated at a root with only
`width="24"`: processing fails with `MissingGeometry`. -/
theorem claim_C10_witness :
    ((getAttr c10w.rootAttrib "width" = none ∧
        (getAttr c10w.rootAttrib "height").isSome = true) ∨
      ((getAttr c10w.rootAttrib "width").isSome = true ∧
        getAttr c10w.rootAttrib "height" = none)) ∧
    getAttr c10w.rootAttrib "viewBox" = none ∧
    process_svg c10w = .error .missingGeometry :=
  ⟨Or.inr ⟨by decide, by decide⟩, by decide,
   (claim_C10 c10w (Or.inr ⟨by decide, by decide⟩)).1 (by decide)⟩

/-- C10 counterexample: with `width="24"`, no height, and the
viewBox attribute present but empty, the code fails with
`MissingGeometry` although the claim says that with a viewBox
present it succeeds. -/
theorem claim_C10_cex :
    process_svg c10ex = .error .missingGeometry ∧
    getAttr c10ex.rootAttrib "viewBox" = some "" ∧
    getAttr c10ex.rootAttrib "width" = some "24" ∧
    getAttr c10ex.rootAttrib "height" = none := by
  refine ⟨?_, by decide, by decide, by decide⟩
  show geometryNormalize (structuralFilter c10ex) = _
  rw [geometryNormalize_eq]
  have gw : getAttr (structuralFilter c10ex).rootAttrib "width" = some "24" := by
    rw [getAttr_structuralFilter]; decide
  have gh : getAttr (structuralFilter c10ex).rootAttrib "height" = none := by
    rw [getAttr_structuralFilter]; decide
  have gv : getAttr (structuralFilter c10ex).rootAttrib "viewBox" = some "" := by
    rw [getAttr_structuralFilter]; decide
  rw [gw, gh, gv]
  simp [truthyO]
